import Mathlib

/-!
Shallow embedding of `aeroports_dist/src/aeroports_dist/app.py` (the core:
distance computation, flight-eligibility rule, nearest-airport search).

Modelling decisions:
* A pandas row is an `Airport` structure.  The columns `iata_code`,
  `name_eng`, `city_eng`, `latitude`, `longitude` are required by the code
  (`find_nearest_airports` indexes them unconditionally); `country_rus` is
  optional (`'country_rus' in airport_row.index`, `row.get('country_rus', '')`),
  hence `Option String`.
* Python floats are modelled as real numbers; `math.sin`, `math.cos`,
  `math.sqrt`, `math.atan2`, `math.radians` become their real counterparts
  (`atan2` is spelled out below with the C-library case split).
* A DataFrame is a `List Airport`; boolean-mask selection is `List.filter`,
  `df[df['iata_code'] == code]` followed by the `.empty` test and `.iloc[0]`
  is `List.find?`.
* `nsmallest(n, 'distance_km')` (default `keep='first'`) returns the n rows
  with the smallest distance, sorted ascending, ties resolved in favour of
  earlier rows (pandas implements it with a stable `argsort(kind="mergesort")`);
  it is modelled as a stable merge sort by distance followed by `List.take n`.
-/

/-- An airport record (one row of the dataset). -/
structure Airport where
  iata_code : String
  name_eng : String
  city_eng : String
  country_rus : Option String
  latitude : ℝ
  longitude : ℝ

/-- The constant `EARTH_RADIUS_KM = 6371.0`. -/
def EARTH_RADIUS_KM : ℝ := 6371.0

/-- The static list `RESTRICTED_COUNTRIES` of countries that accept no
flights from Russia, copied verbatim from the source. -/
def RESTRICTED_COUNTRIES : List String := [
  -- Европа
  "Германия", "Франция", "Италия", "Испания", "Великобритания",
  "Польша", "Чехия", "Словакия", "Венгрия", "Румыния",
  "Болгария", "Греция", "Кипр", "Хорватия", "Словения",
  "Австрия", "Швейцария", "Бельгия", "Нидерланды", "Люксембург",
  "Дания", "Швеция", "Норвегия", "Финляндия", "Исландия",
  "Ирландия", "Португалия", "Мальта", "Эстония", "Латвия", "Литва",
  -- Северная Америка
  "США", "Канада",
  -- Азиатско-Тихоокеанский регион
  "Япония", "Южная Корея", "Австралия", "Новая Зеландия",
  "Сингапур", "Малайзия", "Индонезия", "Филиппины",
  -- Другие
  "Украина", "Молдова"]

/-- Conversion `math.radians`: degrees to radians. -/
noncomputable def radians (x : ℝ) : ℝ := x * (Real.pi / 180)

/-- The function `math.atan2 y x`, by the C-library case split. -/
noncomputable def atan2 (y x : ℝ) : ℝ :=
  if 0 < x then Real.arctan (y / x)
  else if x < 0 then
    (if 0 ≤ y then Real.arctan (y / x) + Real.pi else Real.arctan (y / x) - Real.pi)
  else
    (if 0 < y then Real.pi / 2 else if y < 0 then -(Real.pi / 2) else 0)

/-- The intermediate value `a` of `haversine_distance`:
`a = sin(dlat/2)**2 + cos(lat1) * cos(lat2) * sin(dlon/2)**2`
after the four inputs have been converted to radians. -/
noncomputable def hav_a (lat1 lon1 lat2 lon2 : ℝ) : ℝ :=
  Real.sin ((radians lat2 - radians lat1) / 2) ^ 2 +
    Real.cos (radians lat1) * Real.cos (radians lat2) *
      Real.sin ((radians lon2 - radians lon1) / 2) ^ 2

/-- The function `haversine_distance(lat1, lon1, lat2, lon2)`:
`c = 2 * atan2(sqrt(a), sqrt(1-a))`, result `EARTH_RADIUS_KM * c`. -/
noncomputable def haversine_distance (lat1 lon1 lat2 lon2 : ℝ) : ℝ :=
  EARTH_RADIUS_KM *
    (2 * atan2 (Real.sqrt (hav_a lat1 lon1 lat2 lon2))
      (Real.sqrt (1 - hav_a lat1 lon1 lat2 lon2)))

/-- Python `s.startswith(pre)`: the characters of `pre` are a prefix of the
characters of `s`. -/
def str_startswith (s pre : String) : Bool := pre.data.isPrefixOf s.data

/-- The predicate `is_russian_airport(airport_row)`: when the `country_rus` column is
present, membership of the country in the three Russian designations; only
when it is absent, the fallback check that the IATA code starts with `'U'`. -/
def is_russian_airport (a : Airport) : Bool :=
  match a.country_rus with
  | some c => ["Россия", "РФ", "Российская Федерация"].contains c
  | none => str_startswith a.iata_code "U"

/-- The rule `can_fly_between(airport1, airport2, df)` (the `df` argument is unused in
the source body and is dropped here). -/
def can_fly_between (airport1 airport2 : Airport) : Bool :=
  let country1 := airport1.country_rus.getD ""
  let country2 := airport2.country_rus.getD ""
  let is_russian1 := is_russian_airport airport1
  let is_russian2 := is_russian_airport airport2
  if is_russian1 && is_russian2 then true
  else if is_russian1 && RESTRICTED_COUNTRIES.contains country2 then false
  else if is_russian2 && RESTRICTED_COUNTRIES.contains country1 then false
  else true

/-- The lookup `target = df[df['iata_code'] == target_code]`, the `target.empty` test and
`target.iloc[0]`: the first row whose code equals the target code, if any. -/
def find_target (df : List Airport) (target_code : String) : Option Airport :=
  df.find? (fun a => a.iata_code == target_code)

/-- The candidate rows of `find_nearest_airports` together with their
`distance_km` column: drop the target code, keep rows flyable from the
target, and attach the haversine distance to the target. -/
noncomputable def candidates (df : List Airport) (target : Airport)
    (target_code : String) : List (Airport × ℝ) :=
  (((df.filter (fun a => a.iata_code != target_code)).filter
      (fun a => can_fly_between target a)).map
    (fun a => (a, haversine_distance target.latitude target.longitude
      a.latitude a.longitude)))

/-- The comparison used by `nsmallest(n, 'distance_km')`: by the distance
column. -/
noncomputable def distance_le (x y : Airport × ℝ) : Bool := decide (x.2 ≤ y.2)

/-- The search `find_nearest_airports(df, target_code, n=5)`: `None` when the target
code is absent, otherwise the n eligible rows nearest to the target, each
with its distance. -/
noncomputable def find_nearest_airports (df : List Airport)
    (target_code : String) (n : Nat) : Option (List (Airport × ℝ)) :=
  match find_target df target_code with
  | none => none
  | some target =>
      some (((candidates df target target_code).mergeSort distance_le).take n)

/-- Statement-by-statement embedding of `find_nearest_airports` with the
dataset threaded as explicit state.  Each pandas frame variable is a distinct
immutable value; `other_airports = df[...].copy()` binds a fresh value, and
the column assignment `other_airports['distance_km'] = ...` rebinds that copy
(modelled by pairing each row with its distance), never `df`.  The function
returns its result together with the dataset as it stands after the call. -/
noncomputable def find_nearest_airports_run (df : List Airport)
    (target_code : String) (n : Nat) :
    Option (List (Airport × ℝ)) × List Airport :=
  match find_target df target_code with
  | none => (none, df)
  | some target =>
      -- other_airports = df[df['iata_code'] != target_code].copy()
      let other_airports := df.filter (fun a => a.iata_code != target_code)
      -- the can_fly_between filter over the copy
      let valid_airports := other_airports.filter (fun a => can_fly_between target a)
      -- other_airports['distance_km'] = ... : the column lands on the copy only
      let with_distance := valid_airports.map
        (fun a => (a, haversine_distance target.latitude target.longitude
          a.latitude a.longitude))
      -- nearest = other_airports.nsmallest(n, 'distance_km')
      let nearest := (with_distance.mergeSort distance_le).take n
      (some nearest, df)

/-! Concrete records used to instantiate the theorems.

The three airports of the spec's worked example: domestic `exA` (55.0, 37.0)
and `exB` (59.9, 30.3), and `exC` (48.8, 2.3) in a restricted country. -/

def exA : Airport :=
  ⟨"AAA", "Airport A", "City A", some "Россия", 55.0, 37.0⟩

def exB : Airport :=
  ⟨"BBB", "Airport B", "City B", some "Россия", 59.9, 30.3⟩

def exC : Airport :=
  ⟨"CCC", "Airport C", "City C", some "Франция", 48.8, 2.3⟩

def exDs : List Airport := [exA, exB, exC]

/-- A foreign airport in a restricted country, without the fallback prefix. -/
def exD : Airport :=
  ⟨"DDD", "Airport D", "City D", some "США", 38.9, -77.4⟩

/-- A record with no `country_rus` column and a code starting with `'U'`. -/
def exU : Airport :=
  ⟨"ULLI", "Airport U", "City U", none, 59.8, 30.3⟩


/-- A foreign airport in a country absent from the restricted list. -/
def exE : Airport :=
  ⟨"EEE", "Airport E", "City E", some "Китай", 40.1, 116.6⟩

/-! Helper lemmas. -/

lemma hav_a_symm (lat1 lon1 lat2 lon2 : ℝ) :
    hav_a lat1 lon1 lat2 lon2 = hav_a lat2 lon2 lat1 lon1 := by
  have h : ∀ x y : ℝ, Real.sin ((x - y) / 2) ^ 2 = Real.sin ((y - x) / 2) ^ 2 := by
    intro x y
    rw [show (x - y) / 2 = -((y - x) / 2) by ring, Real.sin_neg, neg_sq]
  unfold hav_a
  rw [h (radians lat2) (radians lat1), h (radians lon2) (radians lon1)]
  ring

lemma hav_a_self (lat lon : ℝ) : hav_a lat lon lat lon = 0 := by
  unfold hav_a
  simp

lemma atan2_zero_one : atan2 0 1 = 0 := by
  unfold atan2
  norm_num [Real.arctan_zero]

lemma can_fly_between_cases (a b : Airport) :
    can_fly_between a b =
      ((is_russian_airport a && is_russian_airport b) ||
        !((is_russian_airport a && !is_russian_airport b &&
            RESTRICTED_COUNTRIES.contains (b.country_rus.getD "")) ||
          (!is_russian_airport a && is_russian_airport b &&
            RESTRICTED_COUNTRIES.contains (a.country_rus.getD "")))) := by
  simp only [can_fly_between]
  cases h1 : is_russian_airport a <;> cases h2 : is_russian_airport b <;>
    cases h3 : RESTRICTED_COUNTRIES.contains (b.country_rus.getD "") <;>
    cases h4 : RESTRICTED_COUNTRIES.contains (a.country_rus.getD "") <;>
    simp [h1, h2, h3, h4]

/-! Claim theorems: distance and eligibility. -/

/-- C5: `haversine_distance` is symmetric in its two points, vanishes on
identical points, and is the haversine central angle
`2 * atan2(sqrt a, sqrt (1 - a))` (inputs converted to radians) scaled by the
sphere radius `EARTH_RADIUS_KM = 6371.0`. -/
theorem haversine_distance_symm_self_radius (lat1 lon1 lat2 lon2 : ℝ) :
    haversine_distance lat1 lon1 lat2 lon2 = haversine_distance lat2 lon2 lat1 lon1 ∧
    haversine_distance lat1 lon1 lat1 lon1 = 0 ∧
    haversine_distance lat1 lon1 lat2 lon2 =
      EARTH_RADIUS_KM * (2 * atan2 (Real.sqrt (hav_a lat1 lon1 lat2 lon2))
        (Real.sqrt (1 - hav_a lat1 lon1 lat2 lon2))) := by
  refine ⟨?_, ?_, rfl⟩
  · unfold haversine_distance
    rw [hav_a_symm]
  · unfold haversine_distance
    rw [hav_a_self]
    norm_num [Real.sqrt_zero, Real.sqrt_one, atan2_zero_one]

/-- C1: the eligibility rule of `can_fly_between` — always allowed when both
airports are domestic; disallowed when exactly one is domestic and the other
airport's country is in `RESTRICTED_COUNTRIES`; allowed in every other case
(both foreign, or a domestic–foreign pair with an unrestricted country). -/
theorem can_fly_between_rule (a b : Airport) :
    (is_russian_airport a = true → is_russian_airport b = true →
      can_fly_between a b = true) ∧
    (is_russian_airport a = true → is_russian_airport b = false →
      RESTRICTED_COUNTRIES.contains (b.country_rus.getD "") = true →
      can_fly_between a b = false) ∧
    (is_russian_airport a = false → is_russian_airport b = true →
      RESTRICTED_COUNTRIES.contains (a.country_rus.getD "") = true →
      can_fly_between a b = false) ∧
    (is_russian_airport a = false → is_russian_airport b = false →
      can_fly_between a b = true) ∧
    (is_russian_airport a = true → is_russian_airport b = false →
      RESTRICTED_COUNTRIES.contains (b.country_rus.getD "") = false →
      can_fly_between a b = true) ∧
    (is_russian_airport a = false → is_russian_airport b = true →
      RESTRICTED_COUNTRIES.contains (a.country_rus.getD "") = false →
      can_fly_between a b = true) := by
  rw [can_fly_between_cases]
  refine ⟨fun h1 h2 => ?_, fun h1 h2 h3 => ?_, fun h1 h2 h3 => ?_,
    fun h1 h2 => ?_, fun h1 h2 h3 => ?_, fun h1 h2 h3 => ?_⟩ <;> simp_all

/-- C1 witness: the rule instantiated on concrete pairs — two domestic
airports, a domestic paired with a restricted-country airport (both orders),
two foreign airports, and a domestic paired with an unrestricted foreign
airport (both orders). -/
theorem can_fly_between_rule_witness :
    can_fly_between exA exB = true ∧ can_fly_between exA exC = false ∧
      can_fly_between exC exA = false ∧ can_fly_between exC exD = true ∧
      can_fly_between exA exE = true ∧ can_fly_between exE exA = true :=
  ⟨(can_fly_between_rule exA exB).1 rfl rfl,
    (can_fly_between_rule exA exC).2.1 rfl rfl rfl,
    (can_fly_between_rule exC exA).2.2.1 rfl rfl rfl,
    (can_fly_between_rule exC exD).2.2.2.1 rfl rfl,
    (can_fly_between_rule exA exE).2.2.2.2.1 rfl rfl rfl,
    (can_fly_between_rule exE exA).2.2.2.2.2 rfl rfl rfl⟩

/-- C8: whenever neither airport is domestic, `can_fly_between` returns
`true`, regardless of the two countries (in particular even when both are in
`RESTRICTED_COUNTRIES`). -/
theorem can_fly_between_both_foreign (a b : Airport)
    (h1 : is_russian_airport a = false) (h2 : is_russian_airport b = false) :
    can_fly_between a b = true := by
  simp [can_fly_between, h1, h2]

/-- C8 witness: `exC` (Франция) and `exD` (США) are both foreign and both in
restricted countries, yet flying between them is allowed. -/
theorem can_fly_between_both_foreign_witness : can_fly_between exC exD = true :=
  can_fly_between_both_foreign exC exD rfl rfl

/-- C10: `can_fly_between` is symmetric. -/
theorem can_fly_between_symm (a b : Airport) :
    can_fly_between a b = can_fly_between b a := by
  rw [can_fly_between_cases, can_fly_between_cases]
  cases h1 : is_russian_airport a <;> cases h2 : is_russian_airport b <;>
    cases h3 : RESTRICTED_COUNTRIES.contains (b.country_rus.getD "") <;>
    cases h4 : RESTRICTED_COUNTRIES.contains (a.country_rus.getD "") <;>
    simp [h1, h2, h3, h4]

/-- C7: when the `country_rus` field is present, `is_russian_airport` is the
membership of that country in the three Russian designations, and the
code-prefix fallback plays no role; only when the field is absent does the
IATA code prefix `'U'` decide the result. -/
theorem is_russian_airport_precedence (a : Airport) :
    (∀ c, a.country_rus = some c →
      (is_russian_airport a = true ↔
        c ∈ (["Россия", "РФ", "Российская Федерация"] : List String))) ∧
    (a.country_rus = none →
      (is_russian_airport a = true ↔ str_startswith a.iata_code "U" = true)) := by
  constructor
  · intro c hc
    simp [is_russian_airport, hc]
  · intro hc
    simp [is_russian_airport, hc]

/-- C7 witness: a record with country `Россия` is domestic; a record without
a country field and code `ULLI` is domestic through the fallback; a record
with country `США` is not domestic even though the country field is present
and consulted first. -/
theorem is_russian_airport_precedence_witness :
    is_russian_airport exA = true ∧ is_russian_airport exU = true ∧
      is_russian_airport exD = false := by
  refine ⟨?_, ?_, ?_⟩
  · exact ((is_russian_airport_precedence exA).1 "Россия" rfl).mpr (by decide)
  · exact ((is_russian_airport_precedence exU).2 rfl).mpr (by decide)
  · cases hb : is_russian_airport exD
    · rfl
    · exact absurd (((is_russian_airport_precedence exD).1 "США" rfl).mp hb)
        (by decide)

lemma distance_le_trans :
    ∀ x y z : Airport × ℝ, distance_le x y → distance_le y z → distance_le x z := by
  intro x y z hxy hyz
  simp only [distance_le, decide_eq_true_eq] at *
  exact le_trans hxy hyz

lemma distance_le_total : ∀ x y : Airport × ℝ, distance_le x y || distance_le y x := by
  intro x y
  simp only [distance_le]
  rcases le_total x.2 y.2 with h | h <;> simp [h]

/-! Claim theorems: the nearest-airport search. -/

/-- C3: `find_nearest_airports` returns `none` (NotFound) exactly when no
airport in the dataset carries the target code; when the target exists but
every other airport is rejected by the eligibility rule, it returns the empty
sequence `some []`, a non-error value distinct from `none`. -/
theorem find_nearest_airports_notfound (df : List Airport) (t : String) (n : Nat) :
    (find_nearest_airports df t n = none ↔ ∀ a ∈ df, a.iata_code ≠ t) ∧
    (∀ target, find_target df t = some target →
      (∀ a ∈ df, a.iata_code ≠ t → can_fly_between target a = false) →
      find_nearest_airports df t n = some []) := by
  constructor
  · constructor
    · intro h
      cases hft : find_target df t with
      | none =>
        intro a ha
        simpa using List.find?_eq_none.mp hft a ha
      | some target => simp [find_nearest_airports, hft] at h
    · intro h
      have hft : find_target df t = none := by
        apply List.find?_eq_none.mpr
        intro a ha
        simpa using h a ha
      simp [find_nearest_airports, hft]
  · intro target hft hall
    have hc : candidates df target t = [] := by
      unfold candidates
      have hnil : (df.filter (fun a => a.iata_code != t)).filter
          (fun a => can_fly_between target a) = [] := by
        apply List.filter_eq_nil_iff.mpr
        intro a ha
        have hmem := List.mem_filter.mp ha
        have hne : a.iata_code ≠ t := by simpa using hmem.2
        simp [hall a hmem.1 hne]
      rw [hnil]
      rfl
    simp [find_nearest_airports, hft, hc]

/-- C3 witness: on the example dataset, an unknown code gives `none`; with
target `AAA` and the only other airport in a restricted country, the result
is `some []`. -/
theorem find_nearest_airports_notfound_witness :
    find_nearest_airports exDs "ZZZ" 5 = none ∧
      find_nearest_airports [exA, exC] "AAA" 5 = some [] := by
  constructor
  · exact (find_nearest_airports_notfound exDs "ZZZ" 5).1.mpr (by decide)
  · exact (find_nearest_airports_notfound [exA, exC] "AAA" 5).2 exA rfl (by decide)

/-- C2: whenever `find_nearest_airports` returns a result, it has at most `n`
entries, its distances are non-decreasing, and no entry carries the target
code. -/
theorem find_nearest_airports_shape (df : List Airport) (t : String) (n : Nat)
    (res : List (Airport × ℝ)) (h : find_nearest_airports df t n = some res) :
    res.length ≤ n ∧ res.Pairwise (fun x y => x.2 ≤ y.2) ∧
      ∀ p ∈ res, p.1.iata_code ≠ t := by
  cases hft : find_target df t with
  | none => simp [find_nearest_airports, hft] at h
  | some target =>
    have hres : res = ((candidates df target t).mergeSort distance_le).take n := by
      simp [find_nearest_airports, hft] at h
      exact h.symm
    subst hres
    refine ⟨?_, ?_, ?_⟩
    · rw [List.length_take]
      exact Nat.min_le_left n _
    · have hs := List.sorted_mergeSort distance_le_trans distance_le_total
        (candidates df target t)
      have hs' := hs.sublist (List.take_sublist n _)
      exact hs'.imp (fun hxy => by simpa [distance_le] using hxy)
    · intro p hp
      have hp1 : p ∈ (candidates df target t).mergeSort distance_le :=
        List.mem_of_mem_take hp
      have hp2 : p ∈ candidates df target t := List.mem_mergeSort.mp hp1
      unfold candidates at hp2
      obtain ⟨a, ha, rfl⟩ := List.mem_map.mp hp2
      have ha1 := (List.mem_filter.mp ha).1
      simpa using (List.mem_filter.mp ha1).2

/-- The distance from `exA` to `exB` computed by the model. -/
noncomputable def exDistAB : ℝ :=
  haversine_distance exA.latitude exA.longitude exB.latitude exB.longitude

/-- C2 witness: the shape properties instantiated on the two-airport dataset
`[exA, exB]` with target `AAA` and `n = 3`. -/
theorem find_nearest_airports_shape_witness :
    ([(exB, exDistAB)] : List (Airport × ℝ)).length ≤ 3 ∧
      List.Pairwise (fun x y : Airport × ℝ => x.2 ≤ y.2) [(exB, exDistAB)] ∧
      ∀ p ∈ ([(exB, exDistAB)] : List (Airport × ℝ)), p.1.iata_code ≠ "AAA" :=
  find_nearest_airports_shape [exA, exB] "AAA" 3 [(exB, exDistAB)] (by
    have hft : find_target [exA, exB] "AAA" = some exA := rfl
    have hc : candidates [exA, exB] exA "AAA" = [(exB, exDistAB)] := rfl
    simp [find_nearest_airports, hft, hc])

/-- C9: the statement-by-statement embedding of `find_nearest_airports`
returns the dataset unchanged (the distance column lives only on the copy),
and its result component agrees with `find_nearest_airports`. -/
theorem find_nearest_airports_run_frame (df : List Airport) (t : String) (n : Nat) :
    (find_nearest_airports_run df t n).2 = df ∧
      (find_nearest_airports_run df t n).1 = find_nearest_airports df t n := by
  cases hft : find_target df t with
  | none => simp [find_nearest_airports_run, find_nearest_airports, hft]
  | some target =>
      simp [find_nearest_airports_run, find_nearest_airports, hft, candidates]

/-- C4 counterexample: on the spec's example dataset, searching from the
restricted-country airport `exC` yields neither `[exA]` nor `[exB]` — the
eligibility rule also rejects a domestic candidate when the *target's*
country is restricted, so both candidates are filtered out. -/
theorem find_nearest_example_counterexample :
    ¬(find_nearest_airports exDs "CCC" 1 =
        some [(exA, haversine_distance exC.latitude exC.longitude
          exA.latitude exA.longitude)] ∨
      find_nearest_airports exDs "CCC" 1 =
        some [(exB, haversine_distance exC.latitude exC.longitude
          exB.latitude exB.longitude)]) := by
  have hft : find_target exDs "CCC" = some exC := rfl
  have hc : candidates exDs exC "CCC" = [] := rfl
  have h : find_nearest_airports exDs "CCC" 1 = some [] := by
    simp [find_nearest_airports, hft, hc]
  rw [h]
  rintro (hcontra | hcontra) <;> simp at hcontra

/-- C4 amended: `find_nearest_airports(exDs, "AAA", 1)` returns exactly
`[exB]` with its distance (`exC` is excluded), and
`find_nearest_airports(exDs, "CCC", 1)` returns the empty sequence, because
`can_fly_between` rejects both domestic candidates for a restricted-country
target. -/
theorem find_nearest_example_amended :
    find_nearest_airports exDs "AAA" 1 =
      some [(exB, haversine_distance exA.latitude exA.longitude
        exB.latitude exB.longitude)] ∧
    find_nearest_airports exDs "CCC" 1 = some [] := by
  constructor
  · have hft : find_target exDs "AAA" = some exA := rfl
    have hc : candidates exDs exA "AAA" =
        [(exB, haversine_distance exA.latitude exA.longitude
          exB.latitude exB.longitude)] := rfl
    simp [find_nearest_airports, hft, hc]
  · have hft : find_target exDs "CCC" = some exC := rfl
    have hc : candidates exDs exC "CCC" = [] := rfl
    simp [find_nearest_airports, hft, hc]

/-! Helper lemmas for stability. -/

lemma pair_sublist_antisymm {α : Type} {x y : α} {l : List α} (hnd : l.Nodup)
    (h1 : List.Sublist [x, y] l) (h2 : List.Sublist [y, x] l) : x = y := by
  induction l with
  | nil => cases h1
  | cons a t ih =>
    obtain ⟨hat, hnd'⟩ := List.nodup_cons.mp hnd
    cases h1 with
    | cons _ h1' =>
      cases h2 with
      | cons _ h2' => exact ih hnd' h1' h2'
      | cons₂ _ h2' =>
        exact absurd (h1'.subset (by simp)) hat
    | cons₂ _ h1' =>
      cases h2 with
      | cons _ h2' =>
        exact absurd (h2'.subset (by simp)) hat
      | cons₂ _ h2' => rfl

lemma mem_take_of_pair_sublist {α : Type} {x y : α} {l : List α} {n : Nat}
    (hnd : l.Nodup) (h : List.Sublist [x, y] l) (hy : y ∈ l.take n) :
    x ∈ l.take n := by
  induction l generalizing n with
  | nil => cases h
  | cons a t ih =>
    obtain ⟨hat, hnd'⟩ := List.nodup_cons.mp hnd
    cases n with
    | zero => simp at hy
    | succ m =>
      simp only [List.take_succ_cons] at hy ⊢
      cases h with
      | cons₂ _ h' => exact List.mem_cons_self _ _
      | cons _ h' =>
        rcases List.mem_cons.mp hy with hy1 | hy2
        · have hyt : y ∈ t := h'.subset (by simp)
          rw [hy1] at hyt
          exact absurd hyt hat
        · exact List.mem_cons_of_mem a (ih hnd' h' hy2)

lemma pair_sublist_of_mem {α : Type} {x y : α} {l : List α}
    (hx : x ∈ l) (hy : y ∈ l) (hxy : x ≠ y) :
    List.Sublist [x, y] l ∨ List.Sublist [y, x] l := by
  induction l with
  | nil => cases hx
  | cons a t ih =>
    rcases List.mem_cons.mp hx with rfl | hx'
    · have hy' : y ∈ t := by
        rcases List.mem_cons.mp hy with h | h
        · exact absurd h.symm hxy
        · exact h
      exact Or.inl ((List.singleton_sublist.mpr hy').cons₂ x)
    · rcases List.mem_cons.mp hy with rfl | hy'
      · exact Or.inr ((List.singleton_sublist.mpr hx').cons₂ y)
      · rcases ih hx' hy' with h | h
        · exact Or.inl (h.cons a)
        · exact Or.inr (h.cons a)

lemma candidates_nodup (df : List Airport) (target : Airport) (t : String)
    (hnd : df.Nodup) : (candidates df target t).Nodup := by
  unfold candidates
  apply List.Nodup.map
  · intro a b hab
    exact congrArg Prod.fst hab
  · exact (hnd.filter _).filter _

/-- C6: on a duplicate-free dataset, a returned result is sorted by
non-decreasing distance; two tied entries occur in the result in the same
relative order in which the candidate rows occur in the dataset; and at the
cut-off, a tied candidate occurring earlier in the dataset is kept whenever a
later tied one is. -/
theorem find_nearest_airports_stable (df : List Airport) (t : String) (n : Nat)
    (target : Airport) (res : List (Airport × ℝ)) (hnd : df.Nodup)
    (hft : find_target df t = some target)
    (h : find_nearest_airports df t n = some res) :
    res.Pairwise (fun x y => x.2 ≤ y.2) ∧
    (∀ x y : Airport × ℝ, x.2 = y.2 → List.Sublist [x, y] res →
      List.Sublist [x, y] (candidates df target t)) ∧
    (∀ x y : Airport × ℝ, x.2 = y.2 →
      List.Sublist [x, y] (candidates df target t) → y ∈ res → x ∈ res) := by
  have hres : res = ((candidates df target t).mergeSort distance_le).take n := by
    simp [find_nearest_airports, hft] at h
    exact h.symm
  have hcnd : (candidates df target t).Nodup := candidates_nodup df target t hnd
  have hsortnd : ((candidates df target t).mergeSort distance_le).Nodup :=
    (List.mergeSort_perm (candidates df target t) distance_le).nodup_iff.mpr hcnd
  subst hres
  refine ⟨?_, ?_, ?_⟩
  · have hs := List.sorted_mergeSort distance_le_trans distance_le_total
      (candidates df target t)
    exact (hs.sublist (List.take_sublist n _)).imp
      (fun hxy => by simpa [distance_le] using hxy)
  · intro x y hxy hsub
    have hsub' : List.Sublist [x, y]
        ((candidates df target t).mergeSort distance_le) :=
      hsub.trans (List.take_sublist n _)
    have hxyne : x ≠ y := by
      have hpair : ([x, y] : List (Airport × ℝ)).Nodup := hsub'.nodup hsortnd
      simpa using hpair
    have hx : x ∈ candidates df target t :=
      List.mem_mergeSort.mp (hsub'.subset (by simp))
    have hy : y ∈ candidates df target t :=
      List.mem_mergeSort.mp (hsub'.subset (by simp))
    rcases pair_sublist_of_mem hx hy hxyne with h' | h'
    · exact h'
    · exfalso
      have hrev : List.Sublist [y, x]
          ((candidates df target t).mergeSort distance_le) :=
        List.pair_sublist_mergeSort distance_le_trans distance_le_total
          (by simp [distance_le, hxy]) h'
      exact hxyne (pair_sublist_antisymm hsortnd hsub' hrev)
  · intro x y hxy hsub hy
    have hxy' : List.Sublist [x, y]
        ((candidates df target t).mergeSort distance_le) :=
      List.pair_sublist_mergeSort distance_le_trans distance_le_total
        (by simp [distance_le, hxy]) hsub
    exact mem_take_of_pair_sublist hsortnd hxy' hy

/-- C6 witness: the stability properties instantiated on the duplicate-free
dataset `[exA, exB]` with target `AAA` and `n = 3`. -/
theorem find_nearest_airports_stable_witness :
    List.Pairwise (fun x y : Airport × ℝ => x.2 ≤ y.2)
      [(exB, haversine_distance exA.latitude exA.longitude
        exB.latitude exB.longitude)] ∧
    (∀ x y : Airport × ℝ, x.2 = y.2 →
      List.Sublist [x, y] [(exB, haversine_distance exA.latitude exA.longitude
        exB.latitude exB.longitude)] →
      List.Sublist [x, y] (candidates [exA, exB] exA "AAA")) ∧
    (∀ x y : Airport × ℝ, x.2 = y.2 →
      List.Sublist [x, y] (candidates [exA, exB] exA "AAA") →
      y ∈ [(exB, haversine_distance exA.latitude exA.longitude
        exB.latitude exB.longitude)] →
      x ∈ [(exB, haversine_distance exA.latitude exA.longitude
        exB.latitude exB.longitude)]) :=
  find_nearest_airports_stable [exA, exB] "AAA" 3 exA
    [(exB, haversine_distance exA.latitude exA.longitude
      exB.latitude exB.longitude)]
    (by
      have hAB : exA ≠ exB := fun hcontra =>
        absurd (congrArg Airport.iata_code hcontra) (by decide)
      simp [hAB])
    rfl
    (by
      have hft : find_target [exA, exB] "AAA" = some exA := rfl
      have hc : candidates [exA, exB] exA "AAA" =
          [(exB, haversine_distance exA.latitude exA.longitude
            exB.latitude exB.longitude)] := rfl
      simp [find_nearest_airports, hft, hc])
